import Mathlib

/-!
Verification of the environment-driven decision layer and the retrying
command runner of `lib_cicd_github` (file `lib_cicd_github.py`).

The embedding is shallow:

* the process environment is a partial map `Env := String → Option String`
  (`none` models an unset variable);
* Python string helpers (`str.strip`, `str.lower`, `str.split`, `str.join`)
  are re-implemented character-by-character on `List Char` so that every
  definition evaluates by kernel reduction;
* the command runner `run` is modelled as a fuel-indexed interpreter over an
  abstract stream of attempt outcomes (one outcome per subprocess
  invocation); `none` means the loop did not terminate within the given
  fuel;
* the `lru_cache` memoization layer is modelled by an explicit cache state
  record threaded through stateful variants of the decision functions.
-/

/-- Environment snapshot: a map from variable name to its value, `none` when
the variable is unset. -/
def Env : Type := String → Option String

/-- Models `get_env_data(env_variable)`: returns the variable's value when it
is present in `os.environ`, and `""` otherwise. -/
def get_env_data (env : Env) (v : String) : String :=
  match env v with
  | some s => s
  | none => ""

/-- Models `os.getenv(name, default)`. -/
def os_getenv (env : Env) (v : String) (dflt : String) : String :=
  match env v with
  | some s => s
  | none => dflt

/-- Characters stripped by Python's `str.strip()` with no argument (the ASCII
whitespace characters). -/
def isPySpace (c : Char) : Bool :=
  c = ' ' || c = '\t' || c = '\n' || c = '\r' || c = '\x0b' || c = '\x0c'

/-- Strips leading whitespace, then trailing whitespace, from a character
list. -/
def stripChars (l : List Char) : List Char :=
  (((l.dropWhile isPySpace).reverse.dropWhile isPySpace)).reverse

/-- Models Python `s.strip()`. -/
def py_strip (s : String) : String :=
  ⟨stripChars s.data⟩

/-- Models Python `s.lower()` (ASCII case folding; sufficient for the
comparisons against the string literal "true" performed by this program). -/
def py_lower (s : String) : String :=
  ⟨s.data.map Char.toLower⟩

/-- Models Python `sep.join(parts)`. -/
def py_join (sep : String) : List String → String
  | [] => ""
  | [x] => x
  | x :: y :: xs => x ++ sep ++ py_join sep (y :: xs)

/-- Models Python `s.split(sep)` for a one-character separator, on character
lists.  Always returns a non-empty list of segments. -/
def splitChars (sep : Char) : List Char → List (List Char)
  | [] => [[]]
  | c :: rest =>
    match splitChars sep rest with
    | [] => [[]]
    | seg :: segs =>
      if c = sep then [] :: seg :: segs else (c :: seg) :: segs

/-- Models Python `s.split("/")[-1]`: the last `/`-separated segment. -/
def last_path_segment (s : String) : String :=
  ⟨(splitChars '/' s.data).getLastD []⟩

/-- Models `get_branch()` (the pure decision, reading the environment
directly). -/
def get_branch (env : Env) : String :=
  let github_ref := get_env_data env "GITHUB_REF"
  let github_head_ref := get_env_data env "GITHUB_HEAD_REF"
  let github_event_name := get_env_data env "GITHUB_EVENT_NAME"
  if github_event_name = "pull_request" then github_head_ref
  else if github_event_name = "release" then "release"
  else if github_event_name = "push" then
    if github_ref ≠ "" then last_path_segment github_ref
    else "unknown branch, event=" ++ github_event_name
  else "unknown branch, event=" ++ github_event_name

/-- Models `do_build()`: `os.getenv("BUILD", "").lower() == "true"`. -/
def do_build (env : Env) : Bool :=
  if py_lower (os_getenv env "BUILD" "") = "true" then true else false

/-- Models `do_build_test()`. -/
def do_build_test (env : Env) : Bool :=
  if py_lower (os_getenv env "BUILD_TEST" "") = "true" then true else false

/-- Models `do_flake8_tests()`. -/
def do_flake8_tests (env : Env) : Bool :=
  if py_lower (os_getenv env "DO_FLAKE8_TESTS" "") = "true" then true else false

/-- Models `do_mypy_tests()`. -/
def do_mypy_tests (env : Env) : Bool :=
  if py_lower (os_getenv env "MYPY_DO_TESTS" "") = "true" then true else false

/-- Models `do_pytest()`. -/
def do_pytest (env : Env) : Bool :=
  if py_lower (os_getenv env "PYTEST_DO_TESTS" "") = "true" then true else false

/-- Models `do_coverage()`: `get_env_data("DO_COVERAGE").lower() == "true"`. -/
def do_coverage (env : Env) : Bool :=
  py_lower (get_env_data env "DO_COVERAGE") == "true"

/-- Models `do_upload_codecov()`. -/
def do_upload_codecov (env : Env) : Bool :=
  py_lower (get_env_data env "DO_COVERAGE_UPLOAD_CODECOV") == "true"

/-- Models `do_upload_code_climate()`. -/
def do_upload_code_climate (env : Env) : Bool :=
  py_lower (get_env_data env "DO_COVERAGE_UPLOAD_CODE_CLIMATE") == "true"

/-- Models `do_setup_py()`. -/
def do_setup_py (env : Env) : Bool :=
  py_lower (get_env_data env "DO_SETUP_INSTALL") == "true"

/-- Models `do_setup_py_test()`. -/
def do_setup_py_test (env : Env) : Bool :=
  py_lower (get_env_data env "DO_SETUP_INSTALL_TEST") == "true"

/-- Models `do_check_cli()`. -/
def do_check_cli (env : Env) : Bool :=
  py_lower (get_env_data env "DO_CLI_TEST") == "true"

/-- Models `do_build_docs()` with its three early returns. -/
def do_build_docs (env : Env) : Bool :=
  if py_lower (get_env_data env "BUILD_DOCS") ≠ "true" then false
  else if get_env_data env "RST_INCLUDE_SOURCE" = "" then false
  else if get_env_data env "RST_INCLUDE_TARGET" = "" then false
  else true

/-- Models `is_release()`: `get_env_data("GITHUB_EVENT_NAME") == "release"`. -/
def is_release (env : Env) : Bool :=
  get_env_data env "GITHUB_EVENT_NAME" == "release"

/-- Models `do_deploy()`: `do_build() and is_release()`. -/
def do_deploy (env : Env) : Bool :=
  do_build env && is_release env

/-- Models `is_pypy3()`. -/
def is_pypy3 (env : Env) : Bool :=
  (py_lower (get_env_data env "matrix.python-version")).startsWith "pypy-3"

/-- Models `is_ci_runner_os_windows()`. -/
def is_ci_runner_os_windows (env : Env) : Bool :=
  py_lower (get_env_data env "RUNNER_OS") == "windows"

/-- Models `is_ci_runner_os_linux()`. -/
def is_ci_runner_os_linux (env : Env) : Bool :=
  py_lower (get_env_data env "RUNNER_OS") == "linux"

/-- Models `is_ci_runner_os_macos()`. -/
def is_ci_runner_os_macos (env : Env) : Bool :=
  py_lower (get_env_data env "RUNNER_OS") == "macos"

/-- Models `is_github_actions_active()`:
`bool(get_env_data("CI") and get_env_data("GITHUB_WORKFLOW") and
get_env_data("GITHUB_RUN_ID"))` — true iff all three are non-empty. -/
def is_github_actions_active (env : Env) : Bool :=
  !(get_env_data env "CI" == "") && (!(get_env_data env "GITHUB_WORKFLOW" == "")
    && !(get_env_data env "GITHUB_RUN_ID" == ""))

/-- Models `get_github_username()`. -/
def get_github_username (env : Env) : String :=
  get_env_data env "GITHUB_REPOSITORY_OWNER"

/-- Models `get_pip_prefix()`:
`" ".join([os.getenv("cPREFIX", ""), os.getenv("cPIP", "")]).strip()`. -/
def get_pip_cmd (env : Env) : String :=
  py_strip (py_join " " [os_getenv env "cPREFIX" "", os_getenv env "cPIP" ""])

/-- Models `get_python_prefix()`:
`" ".join([os.getenv("cPREFIX", ""), os.getenv("cPYTHON", "")]).strip()`. -/
def get_python_cmd (env : Env) : String :=
  py_strip (py_join " " [os_getenv env "cPREFIX" "", os_getenv env "cPYTHON" ""])

/-- Concrete environment: a push build on `refs/heads/development`. -/
def env_push : Env := fun v =>
  if v = "GITHUB_EVENT_NAME" then some "push"
  else if v = "GITHUB_REF" then some "refs/heads/development"
  else none

/-- Kinds of notifications the program emits through `lib_log_utils`. -/
inductive NotifKind : Type
  | success
  | spam
  | warning
  | error
deriving DecidableEq, Repr

/-- One emitted notification: its kind, whether it is rendered in banner
style, and its text. -/
structure Notification : Type where
  kind : NotifKind
  banner : Bool
  text : String
deriving DecidableEq, Repr

/-- Outcome of one `subprocess.run(command, shell=True, check=True)` call:
either the child exits with status 0, or an exception is raised carrying an
optional `returncode` attribute value and an exception message (`str(exc)`).
The stream of outcomes abstracts the external command's behaviour. -/
inductive AttemptOutcome : Type
  | success
  | failure (returncode : Option Int) (msg : String)
deriving DecidableEq, Repr

/-- How a call of `run` ends: returning normally to the caller, or
terminating the whole process via `sys.exit code`.  There is no error-value
or exception alternative — the source never lets one escape. -/
inductive RunOutcome : Type
  | normal
  | exited (code : Int)
deriving DecidableEq, Repr

/-- Observable trace of one `run` call: how it ended, the notifications it
emitted, how many times it invoked the command, and the sleeps performed. -/
structure RunTrace : Type where
  outcome : RunOutcome
  notifications : List Notification
  attempts : Nat
  sleeps : List Int
deriving DecidableEq, Repr

/-- The fixed redaction placeholder used when `show_command` is false. -/
def secret_placeholder : String := "***secret***"

/-- The generic failure sentence used in the error notification when
`show_command` is false. -/
def redacted_error_msg : String := "Command ***secret*** returned non-zero exit status"

/-- Models the `while True` retry loop of `run`, fuel-indexed: `none` means
the loop performed more than `fuel` iterations (did not terminate within the
fuel).  `tries` is the remaining-attempts counter (a Python `int`), `idx`
the index of the next attempt in the outcome stream.  Returns the final
outcome, the notifications emitted inside the loop, the number of command
invocations and the list of sleeps. -/
def runLoop (d cd : String) (sleep : Int) (show_command : Bool)
    (outcomes : Nat → AttemptOutcome) :
    Nat → Int → Nat → Option (RunOutcome × List Notification × Nat × List Int)
  | 0, _, _ => none
  | fuel + 1, tries, idx =>
    match outcomes idx with
    | AttemptOutcome.success =>
      some (RunOutcome.normal,
        [⟨NotifKind.success, false, "Success: " ++ d⟩], 1, [])
    | AttemptOutcome.failure rc msg =>
      let tries2 := tries - 1
      if tries2 ≠ 0 then
        match runLoop d cd sleep show_command outcomes fuel tries2 (idx + 1) with
        | none => none
        | some (o, ns, a, ss) =>
          some (o,
            ⟨NotifKind.spam, false,
              "Retry in " ++ toString sleep ++ " seconds: " ++ d ++ "\nCommand: " ++ cd⟩ :: ns,
            a + 1, sleep :: ss)
      else
        some (RunOutcome.exited (rc.getD 1),
          [⟨NotifKind.error, true,
            "Error: " ++ d ++ "\nCommand: " ++ cd ++ "\n" ++
              (if show_command then msg else redacted_error_msg)⟩], 1, [])

/-- Models `run(description, command, retry, sleep, banner, show_command)`.
The subprocess behaviour is abstracted by `outcomes`; `fuel` bounds the
number of loop iterations observed (`none` = the loop ran longer). -/
def run (d c : String) (retry sleep : Int) (banner show_command : Bool)
    (outcomes : Nat → AttemptOutcome) (fuel : Nat) : Option RunTrace :=
  let c2 := py_strip c
  let cd := if show_command then c2 else secret_placeholder
  match runLoop d cd sleep show_command outcomes fuel retry 0 with
  | none => none
  | some (o, ns, a, ss) =>
    some ⟨o, ⟨NotifKind.success, banner, "Action: " ++ d ++ "\nCommand: " ++ cd⟩ :: ns, a, ss⟩

/-- Events observable from the orchestration function `deploy`. -/
inductive CicdEvent : Type
  | warning (text : String)
  | spam (text : String)
  | runCmd (description : String) (command : String) (show_command : Bool)
deriving DecidableEq, Repr

/-- Models `deploy(dry_run)`: the sequence of events it produces (warnings,
skip messages, and `run` invocations with their command string and
`show_command` flag). -/
def deploy (env : Env) (dry_run : Bool) : List CicdEvent :=
  if dry_run then []
  else
    let pypi_password := py_strip (get_env_data env "PYPI_PASSWORD")
    if pypi_password = "" then
      [CicdEvent.warning "can not deploy, because secret PYPI_PASSWORD is missing"]
    else if do_deploy env then
      [CicdEvent.runCmd "upload to pypi"
        (py_join " "
          [get_python_cmd env,
           "-m twine upload --repository-url https://upload.pypi.org/legacy/ -u",
           get_github_username env,
           "-p",
           pypi_password,
           "--skip-existing",
           "dist/*"])
        false]
    else
      [CicdEvent.spam "pypi deploy is disabled on this build"]

/-- Cache state modelling the `functools.lru_cache` layer: the process
environment plus one memo slot per cached function (`none` = cache empty),
and an association list keyed by variable name for `get_env_data`. -/
structure CState : Type where
  env : Env
  env_cache : List (String × String)
  c_is_github_actions_active : Option Bool
  c_is_release : Option Bool
  c_do_deploy : Option Bool
  c_do_build : Option Bool
  c_do_build_docs : Option Bool
  c_do_build_test : Option Bool
  c_is_ci_runner_os_macos : Option Bool
  c_is_ci_runner_os_linux : Option Bool
  c_is_ci_runner_os_windows : Option Bool
  c_is_pypy3 : Option Bool
  c_do_flake8_tests : Option Bool
  c_do_check_cli : Option Bool
  c_do_setup_py_test : Option Bool
  c_do_setup_py : Option Bool
  c_do_upload_code_climate : Option Bool
  c_do_upload_codecov : Option Bool
  c_do_coverage : Option Bool
  c_do_pytest : Option Bool
  c_do_mypy_tests : Option Bool
  c_get_github_username : Option String
  c_get_python_cmd : Option String
  c_get_pip_cmd : Option String
  c_get_branch : Option String

/-- Replaces the process environment (models `set_env_data` style mutation
between calls), leaving every cache slot untouched. -/
def with_env (st : CState) (e : Env) : CState := { st with env := e }

/-- Generic memoized call: return the cached value when present, otherwise
compute (possibly touching other caches) and store the result. -/
def memoCall {α : Type} (read : CState → Option α) (write : α → CState → CState)
    (compute : CState → α × CState) (st : CState) : α × CState :=
  match read st with
  | some r => (r, st)
  | none =>
    match compute st with
    | (r, st2) => (r, write r st2)

/-- Models the memoized `get_env_data` (an `lru_cache` keyed on the variable
name): on a hit the environment is not consulted. -/
def call_get_env_data (v : String) (st : CState) : String × CState :=
  match st.env_cache.lookup v with
  | some r => (r, st)
  | none =>
    let r := get_env_data st.env v
    (r, { st with env_cache := (v, r) :: st.env_cache })

/-- Memoized `do_build` (reads the environment directly via `os.getenv`). -/
def call_do_build : CState → Bool × CState :=
  memoCall (fun s => s.c_do_build) (fun r s => { s with c_do_build := some r })
    (fun s => (do_build s.env, s))

/-- Memoized `do_build_test`. -/
def call_do_build_test : CState → Bool × CState :=
  memoCall (fun s => s.c_do_build_test) (fun r s => { s with c_do_build_test := some r })
    (fun s => (do_build_test s.env, s))

/-- Memoized `do_flake8_tests`. -/
def call_do_flake8_tests : CState → Bool × CState :=
  memoCall (fun s => s.c_do_flake8_tests) (fun r s => { s with c_do_flake8_tests := some r })
    (fun s => (do_flake8_tests s.env, s))

/-- Memoized `do_mypy_tests`. -/
def call_do_mypy_tests : CState → Bool × CState :=
  memoCall (fun s => s.c_do_mypy_tests) (fun r s => { s with c_do_mypy_tests := some r })
    (fun s => (do_mypy_tests s.env, s))

/-- Memoized `do_pytest`. -/
def call_do_pytest : CState → Bool × CState :=
  memoCall (fun s => s.c_do_pytest) (fun r s => { s with c_do_pytest := some r })
    (fun s => (do_pytest s.env, s))

/-- Memoized `get_pip_prefix` (reads the environment directly). -/
def call_get_pip_cmd : CState → String × CState :=
  memoCall (fun s => s.c_get_pip_cmd) (fun r s => { s with c_get_pip_cmd := some r })
    (fun s => (get_pip_cmd s.env, s))

/-- Memoized `get_python_prefix` (reads the environment directly). -/
def call_get_python_cmd : CState → String × CState :=
  memoCall (fun s => s.c_get_python_cmd) (fun r s => { s with c_get_python_cmd := some r })
    (fun s => (get_python_cmd s.env, s))

/-- Memoized `do_coverage`; its compute path goes through the memoized
`get_env_data`. -/
def call_do_coverage : CState → Bool × CState :=
  memoCall (fun s => s.c_do_coverage) (fun r s => { s with c_do_coverage := some r })
    (fun s =>
      match call_get_env_data "DO_COVERAGE" s with
      | (v, s1) => (py_lower v == "true", s1))

/-- Memoized `do_upload_codecov`. -/
def call_do_upload_codecov : CState → Bool × CState :=
  memoCall (fun s => s.c_do_upload_codecov) (fun r s => { s with c_do_upload_codecov := some r })
    (fun s =>
      match call_get_env_data "DO_COVERAGE_UPLOAD_CODECOV" s with
      | (v, s1) => (py_lower v == "true", s1))

/-- Memoized `do_upload_code_climate`. -/
def call_do_upload_code_climate : CState → Bool × CState :=
  memoCall (fun s => s.c_do_upload_code_climate)
    (fun r s => { s with c_do_upload_code_climate := some r })
    (fun s =>
      match call_get_env_data "DO_COVERAGE_UPLOAD_CODE_CLIMATE" s with
      | (v, s1) => (py_lower v == "true", s1))

/-- Memoized `do_setup_py`. -/
def call_do_setup_py : CState → Bool × CState :=
  memoCall (fun s => s.c_do_setup_py) (fun r s => { s with c_do_setup_py := some r })
    (fun s =>
      match call_get_env_data "DO_SETUP_INSTALL" s with
      | (v, s1) => (py_lower v == "true", s1))

/-- Memoized `do_setup_py_test`. -/
def call_do_setup_py_test : CState → Bool × CState :=
  memoCall (fun s => s.c_do_setup_py_test) (fun r s => { s with c_do_setup_py_test := some r })
    (fun s =>
      match call_get_env_data "DO_SETUP_INSTALL_TEST" s with
      | (v, s1) => (py_lower v == "true", s1))

/-- Memoized `do_check_cli`. -/
def call_do_check_cli : CState → Bool × CState :=
  memoCall (fun s => s.c_do_check_cli) (fun r s => { s with c_do_check_cli := some r })
    (fun s =>
      match call_get_env_data "DO_CLI_TEST" s with
      | (v, s1) => (py_lower v == "true", s1))

/-- Memoized `is_release`. -/
def call_is_release : CState → Bool × CState :=
  memoCall (fun s => s.c_is_release) (fun r s => { s with c_is_release := some r })
    (fun s =>
      match call_get_env_data "GITHUB_EVENT_NAME" s with
      | (v, s1) => (v == "release", s1))

/-- Memoized `is_pypy3`. -/
def call_is_pypy3 : CState → Bool × CState :=
  memoCall (fun s => s.c_is_pypy3) (fun r s => { s with c_is_pypy3 := some r })
    (fun s =>
      match call_get_env_data "matrix.python-version" s with
      | (v, s1) => ((py_lower v).startsWith "pypy-3", s1))

/-- Memoized `is_ci_runner_os_windows`. -/
def call_is_ci_runner_os_windows : CState → Bool × CState :=
  memoCall (fun s => s.c_is_ci_runner_os_windows)
    (fun r s => { s with c_is_ci_runner_os_windows := some r })
    (fun s =>
      match call_get_env_data "RUNNER_OS" s with
      | (v, s1) => (py_lower v == "windows", s1))

/-- Memoized `is_ci_runner_os_linux`. -/
def call_is_ci_runner_os_linux : CState → Bool × CState :=
  memoCall (fun s => s.c_is_ci_runner_os_linux)
    (fun r s => { s with c_is_ci_runner_os_linux := some r })
    (fun s =>
      match call_get_env_data "RUNNER_OS" s with
      | (v, s1) => (py_lower v == "linux", s1))

/-- Memoized `is_ci_runner_os_macos`. -/
def call_is_ci_runner_os_macos : CState → Bool × CState :=
  memoCall (fun s => s.c_is_ci_runner_os_macos)
    (fun r s => { s with c_is_ci_runner_os_macos := some r })
    (fun s =>
      match call_get_env_data "RUNNER_OS" s with
      | (v, s1) => (py_lower v == "macos", s1))

/-- Memoized `get_github_username`. -/
def call_get_github_username : CState → String × CState :=
  memoCall (fun s => s.c_get_github_username)
    (fun r s => { s with c_get_github_username := some r })
    (fun s => call_get_env_data "GITHUB_REPOSITORY_OWNER" s)

/-- Memoized `do_build_docs`; mirrors the source's early returns, so later
environment variables are not consulted (nor cached) when an earlier check
already fails. -/
def call_do_build_docs : CState → Bool × CState :=
  memoCall (fun s => s.c_do_build_docs) (fun r s => { s with c_do_build_docs := some r })
    (fun s =>
      match call_get_env_data "BUILD_DOCS" s with
      | (bd, s1) =>
        if py_lower bd ≠ "true" then (false, s1)
        else
          match call_get_env_data "RST_INCLUDE_SOURCE" s1 with
          | (src, s2) =>
            if src = "" then (false, s2)
            else
              match call_get_env_data "RST_INCLUDE_TARGET" s2 with
              | (tgt, s3) => (if tgt = "" then false else true, s3))

/-- Memoized `is_github_actions_active`; `and` between the three reads
short-circuits as in Python. -/
def call_is_github_actions_active : CState → Bool × CState :=
  memoCall (fun s => s.c_is_github_actions_active)
    (fun r s => { s with c_is_github_actions_active := some r })
    (fun s =>
      match call_get_env_data "CI" s with
      | (a, s1) =>
        if a = "" then (false, s1)
        else
          match call_get_env_data "GITHUB_WORKFLOW" s1 with
          | (b, s2) =>
            if b = "" then (false, s2)
            else
              match call_get_env_data "GITHUB_RUN_ID" s2 with
              | (c, s3) => (!(c == ""), s3))

/-- Memoized `do_deploy`: `do_build() and is_release()`, short-circuiting so
`is_release` is only invoked when `do_build()` is truthy. -/
def call_do_deploy : CState → Bool × CState :=
  memoCall (fun s => s.c_do_deploy) (fun r s => { s with c_do_deploy := some r })
    (fun s =>
      match call_do_build s with
      | (b, s1) => if b then call_is_release s1 else (false, s1))

/-- Memoized `get_branch`; reads its three variables (in source order)
through the memoized `get_env_data`. -/
def call_get_branch : CState → String × CState :=
  memoCall (fun s => s.c_get_branch) (fun r s => { s with c_get_branch := some r })
    (fun s =>
      match call_get_env_data "GITHUB_REF" s with
      | (github_ref, s1) =>
        match call_get_env_data "GITHUB_HEAD_REF" s1 with
        | (github_head_ref, s2) =>
          match call_get_env_data "GITHUB_EVENT_NAME" s2 with
          | (github_event_name, s3) =>
            ((if github_event_name = "pull_request" then github_head_ref
              else if github_event_name = "release" then "release"
              else if github_event_name = "push" then
                if github_ref ≠ "" then last_path_segment github_ref
                else "unknown branch, event=" ++ github_event_name
              else "unknown branch, event=" ++ github_event_name), s3))

/-- Models `clear_all_caches()`: every memo slot is emptied; the environment
itself is untouched. -/
def clear_all_caches (st : CState) : CState :=
  { env := st.env
    env_cache := []
    c_is_github_actions_active := none
    c_is_release := none
    c_do_deploy := none
    c_do_build := none
    c_do_build_docs := none
    c_do_build_test := none
    c_is_ci_runner_os_macos := none
    c_is_ci_runner_os_linux := none
    c_is_ci_runner_os_windows := none
    c_is_pypy3 := none
    c_do_flake8_tests := none
    c_do_check_cli := none
    c_do_setup_py_test := none
    c_do_setup_py := none
    c_do_upload_code_climate := none
    c_do_upload_codecov := none
    c_do_coverage := none
    c_do_pytest := none
    c_do_mypy_tests := none
    c_get_github_username := none
    c_get_python_cmd := none
    c_get_pip_cmd := none
    c_get_branch := none }

/-- Concrete environment for flag evaluation: every variable set to "TruE". -/
def env_all_true : Env := fun _ => some "TruE"

/-- Concrete environment with no variable set. -/
def env_unset : Env := fun _ => none

/-- Concrete environment: `cPREFIX` empty, `cPIP` set to "python -m pip". -/
def env_pip : Env := fun v =>
  if v = "cPREFIX" then some ""
  else if v = "cPIP" then some "python -m pip"
  else none

/-- Concrete environment: a release build with `BUILD` set but a
whitespace-only `PYPI_PASSWORD`. -/
def env_release_no_password : Env := fun v =>
  if v = "PYPI_PASSWORD" then some " "
  else if v = "BUILD" then some "true"
  else if v = "GITHUB_EVENT_NAME" then some "release"
  else none

/-- Concrete outcome stream: every attempt raises with returncode 5. -/
def fail_outcomes : Nat → AttemptOutcome := fun _ =>
  AttemptOutcome.failure (some 5) "boom"

/-- Follows the spec's words for C7 (not the source): the parts joined by a
single space, with empty segments skipped, trimmed of leading and trailing
whitespace.  Compared against `get_pip_cmd` / `get_python_cmd`. -/
def spec_join_skip_empty (parts : List String) : String :=
  py_strip (py_join " " (parts.filter (fun s => !(s == ""))))

/-- C1: for every environment snapshot, `get_branch` returns `GITHUB_HEAD_REF`
verbatim (even if empty) when `GITHUB_EVENT_NAME` is "pull_request"; the
literal "release" when the event is "release" (regardless of `GITHUB_REF`);
the last `/`-separated segment of `GITHUB_REF` when the event is "push" and
`GITHUB_REF` is non-empty; "unknown branch, event=push" when the event is
"push" and `GITHUB_REF` is empty; and "unknown branch, event=<name>" for
every other event name. -/
theorem get_branch_cases (env : Env) :
    (get_env_data env "GITHUB_EVENT_NAME" = "pull_request" →
      get_branch env = get_env_data env "GITHUB_HEAD_REF")
    ∧ (get_env_data env "GITHUB_EVENT_NAME" = "release" → get_branch env = "release")
    ∧ (get_env_data env "GITHUB_EVENT_NAME" = "push" →
        get_env_data env "GITHUB_REF" ≠ "" →
        get_branch env = last_path_segment (get_env_data env "GITHUB_REF"))
    ∧ (get_env_data env "GITHUB_EVENT_NAME" = "push" →
        get_env_data env "GITHUB_REF" = "" →
        get_branch env = "unknown branch, event=push")
    ∧ (∀ name : String, get_env_data env "GITHUB_EVENT_NAME" = name →
        name ≠ "pull_request" → name ≠ "release" → name ≠ "push" →
        get_branch env = "unknown branch, event=" ++ name) := by
  refine ⟨?_, ?_, ?_, ?_, ?_⟩
  · intro h; simp [get_branch, h]
  · intro h; simp [get_branch, h]
  · intro h hr; simp [get_branch, h, hr]
  · intro h hr; simp [get_branch, h, hr]
  · intro name h h1 h2 h3; simp [get_branch, h, h1, h2, h3]

/-- Witness for C1: a concrete push build on `refs/heads/development`. -/
theorem get_branch_cases_witness : get_branch env_push = "development" := by
  have h := (get_branch_cases env_push).2.2.1 (by decide) (by decide)
  rw [h]
  decide

lemma py_lower_true_lit : py_lower "true" = "true" := by decide

lemma flag_getenv_spec (env : Env) (V : String) :
    (∀ v, env V = some v →
      ((if py_lower (os_getenv env V "") = "true" then true else false) = true
        ↔ py_lower v = py_lower "true"))
    ∧ (env V = none →
        (if py_lower (os_getenv env V "") = "true" then true else false) = false) := by
  constructor
  · intro v hv
    rw [py_lower_true_lit]
    simp [os_getenv, hv]
  · intro hv
    simp only [os_getenv, hv]
    decide

lemma flag_env_data_spec (env : Env) (V : String) :
    (∀ v, env V = some v →
      ((py_lower (get_env_data env V) == "true") = true ↔ py_lower v = py_lower "true"))
    ∧ (env V = none → (py_lower (get_env_data env V) == "true") = false) := by
  constructor
  · intro v hv
    rw [py_lower_true_lit]
    simp [get_env_data, hv]
  · intro hv
    simp only [get_env_data, hv]
    decide

/-- C2: each boolean-flag decision function returns true iff the value of its
flag environment variable equals "true" under case-insensitive comparison,
and returns false otherwise, including when the variable is unset. -/
theorem flag_functions_true_iff (env : Env) :
    ((∀ v, env "BUILD" = some v → (do_build env = true ↔ py_lower v = py_lower "true"))
      ∧ (env "BUILD" = none → do_build env = false))
    ∧ ((∀ v, env "BUILD_TEST" = some v →
          (do_build_test env = true ↔ py_lower v = py_lower "true"))
      ∧ (env "BUILD_TEST" = none → do_build_test env = false))
    ∧ ((∀ v, env "DO_FLAKE8_TESTS" = some v →
          (do_flake8_tests env = true ↔ py_lower v = py_lower "true"))
      ∧ (env "DO_FLAKE8_TESTS" = none → do_flake8_tests env = false))
    ∧ ((∀ v, env "MYPY_DO_TESTS" = some v →
          (do_mypy_tests env = true ↔ py_lower v = py_lower "true"))
      ∧ (env "MYPY_DO_TESTS" = none → do_mypy_tests env = false))
    ∧ ((∀ v, env "PYTEST_DO_TESTS" = some v →
          (do_pytest env = true ↔ py_lower v = py_lower "true"))
      ∧ (env "PYTEST_DO_TESTS" = none → do_pytest env = false))
    ∧ ((∀ v, env "DO_COVERAGE" = some v →
          (do_coverage env = true ↔ py_lower v = py_lower "true"))
      ∧ (env "DO_COVERAGE" = none → do_coverage env = false))
    ∧ ((∀ v, env "DO_COVERAGE_UPLOAD_CODECOV" = some v →
          (do_upload_codecov env = true ↔ py_lower v = py_lower "true"))
      ∧ (env "DO_COVERAGE_UPLOAD_CODECOV" = none → do_upload_codecov env = false))
    ∧ ((∀ v, env "DO_COVERAGE_UPLOAD_CODE_CLIMATE" = some v →
          (do_upload_code_climate env = true ↔ py_lower v = py_lower "true"))
      ∧ (env "DO_COVERAGE_UPLOAD_CODE_CLIMATE" = none → do_upload_code_climate env = false))
    ∧ ((∀ v, env "DO_CLI_TEST" = some v →
          (do_check_cli env = true ↔ py_lower v = py_lower "true"))
      ∧ (env "DO_CLI_TEST" = none → do_check_cli env = false))
    ∧ ((∀ v, env "DO_SETUP_INSTALL" = some v →
          (do_setup_py env = true ↔ py_lower v = py_lower "true"))
      ∧ (env "DO_SETUP_INSTALL" = none → do_setup_py env = false))
    ∧ ((∀ v, env "DO_SETUP_INSTALL_TEST" = some v →
          (do_setup_py_test env = true ↔ py_lower v = py_lower "true"))
      ∧ (env "DO_SETUP_INSTALL_TEST" = none → do_setup_py_test env = false)) :=
  ⟨flag_getenv_spec env "BUILD",
   flag_getenv_spec env "BUILD_TEST",
   flag_getenv_spec env "DO_FLAKE8_TESTS",
   flag_getenv_spec env "MYPY_DO_TESTS",
   flag_getenv_spec env "PYTEST_DO_TESTS",
   flag_env_data_spec env "DO_COVERAGE",
   flag_env_data_spec env "DO_COVERAGE_UPLOAD_CODECOV",
   flag_env_data_spec env "DO_COVERAGE_UPLOAD_CODE_CLIMATE",
   flag_env_data_spec env "DO_CLI_TEST",
   flag_env_data_spec env "DO_SETUP_INSTALL",
   flag_env_data_spec env "DO_SETUP_INSTALL_TEST"⟩

/-- Witness for C2: with every variable set to "TruE" the flag is true; with
everything unset `do_coverage` is false. -/
theorem flag_functions_true_iff_witness :
    do_build env_all_true = true ∧ do_coverage env_unset = false := by
  constructor
  · exact ((flag_functions_true_iff env_all_true).1.1 "TruE" rfl).mpr (by decide)
  · exact (flag_functions_true_iff env_unset).2.2.2.2.2.1.2 rfl

/-- C6: `do_deploy` is true iff both `do_build` and `is_release` are true
(false on the other three combinations of the truth table), where
`is_release` is true iff `GITHUB_EVENT_NAME` equals "release". -/
theorem do_deploy_truth_table (env : Env) :
    (do_deploy env = true ↔ (do_build env = true ∧ is_release env = true))
    ∧ (is_release env = true ↔ get_env_data env "GITHUB_EVENT_NAME" = "release")
    ∧ do_deploy env = (do_build env && is_release env) := by
  refine ⟨?_, ?_, rfl⟩
  · simp [do_deploy]
  · simp [is_release]

lemma isPySpace_space_lit : isPySpace ' ' = true := by decide

lemma dropWhile_append_one (p : Char → Bool) (x : Char) (hx : p x = true) :
    ∀ l : List Char, List.dropWhile p (l ++ [x]) =
      if List.dropWhile p l = [] then [] else List.dropWhile p l ++ [x] := by
  intro l
  induction l with
  | nil => simp [List.dropWhile, hx]
  | cons c t ih =>
    by_cases hc : p c = true
    · simp only [List.cons_append, List.dropWhile_cons, hc, if_true, ih]
    · simp only [List.cons_append, List.dropWhile_cons, hc, if_false]
      simp

lemma stripChars_cons_space (l : List Char) : stripChars (' ' :: l) = stripChars l := by
  simp [stripChars, List.dropWhile_cons, isPySpace_space_lit]

lemma stripChars_append_space (l : List Char) : stripChars (l ++ [' ']) = stripChars l := by
  unfold stripChars
  rw [dropWhile_append_one isPySpace ' ' isPySpace_space_lit l]
  by_cases h : List.dropWhile isPySpace l = []
  · simp [h]
  · rw [if_neg h, List.reverse_append]
    simp [List.dropWhile_cons, isPySpace_space_lit]

lemma py_strip_append_space (s : String) : py_strip (s ++ " ") = py_strip s := by
  unfold py_strip
  congr 1
  rw [String.data_append]
  exact stripChars_append_space s.data

lemma py_strip_space_append (s : String) : py_strip (" " ++ s) = py_strip s := rfl

lemma join_strip_skips_empty (a b : String) :
    py_strip (py_join " " [a, b]) = spec_join_skip_empty [a, b] := by
  unfold spec_join_skip_empty
  by_cases ha : a = ""
  · subst ha
    by_cases hb : b = ""
    · subst hb; decide
    · have hf : (([("" : String), b]).filter (fun s => !(s == ""))) = [b] := by
        have hb' : (!(b == "")) = true := by simp [hb]
        simp [List.filter_cons, hb']
      rw [hf]
      have h1 : py_join " " [("" : String), b] = " " ++ b := by
        show ("" : String) ++ " " ++ b = " " ++ b
        rw [String.empty_append]
      rw [h1]
      exact py_strip_space_append b
  · by_cases hb : b = ""
    · subst hb
      have hf : (([a, ("" : String)]).filter (fun s => !(s == ""))) = [a] := by
        have ha' : (!(a == "")) = true := by simp [ha]
        simp [List.filter_cons, ha']
      rw [hf]
      have h1 : py_join " " [a, ("" : String)] = a ++ " " := by
        show a ++ " " ++ ("" : String) = a ++ " "
        rw [String.append_empty]
      rw [h1]
      exact py_strip_append_space a
    · have hf : (([a, b]).filter (fun s => !(s == ""))) = [a, b] := by
        have ha' : (!(a == "")) = true := by simp [ha]
        have hb' : (!(b == "")) = true := by simp [hb]
        simp [List.filter_cons, ha', hb']
      rw [hf]

/-- C7: the pip (resp. python) invocation is the two environment values
joined by a single space, trimmed, with empty segments skipped; in
particular with `cPREFIX=""` and `cPIP="python -m pip"` the result is
exactly "python -m pip". -/
theorem pip_python_invocation_spec :
    (∀ env : Env,
      get_pip_cmd env
        = spec_join_skip_empty [os_getenv env "cPREFIX" "", os_getenv env "cPIP" ""]
      ∧ get_python_cmd env
        = spec_join_skip_empty [os_getenv env "cPREFIX" "", os_getenv env "cPYTHON" ""])
    ∧ get_pip_cmd env_pip = "python -m pip" := by
  constructor
  · intro env
    exact ⟨join_strip_skips_empty _ _, join_strip_skips_empty _ _⟩
  · decide

lemma runLoop_nonpos_diverges (d cd : String) (sleep : Int) (sc : Bool)
    (outcomes : Nat → AttemptOutcome)
    (hfail : ∀ i, ∃ rc msg, outcomes i = AttemptOutcome.failure rc msg) :
    ∀ fuel (tries : Int) (idx : Nat), tries ≤ 0 →
      runLoop d cd sleep sc outcomes fuel tries idx = none := by
  intro fuel
  induction fuel with
  | zero => intro tries idx _; rfl
  | succ n ih =>
    intro tries idx ht
    obtain ⟨rc, msg, hout⟩ := hfail idx
    have h1 : tries - 1 ≠ 0 := by omega
    simp only [runLoop, hout]
    rw [if_pos h1, ih (tries - 1) (idx + 1) (by omega)]

/-- C9: with `retry ≤ 0` and a command failing on every attempt, the
remaining-attempts counter is decremented past zero and is never zero at the
branch, so the retry loop never reaches the terminal-error branch: for every
fuel bound the loop has not terminated (`run` neither returns nor exits). -/
theorem run_nonpositive_retry_diverges (d c : String) (retry sleep : Int)
    (banner sc : Bool) (outcomes : Nat → AttemptOutcome)
    (hretry : retry ≤ 0)
    (hfail : ∀ i, ∃ rc msg, outcomes i = AttemptOutcome.failure rc msg) :
    ∀ fuel, run d c retry sleep banner sc outcomes fuel = none := by
  intro fuel
  simp only [run]
  rw [runLoop_nonpos_diverges d _ sleep sc outcomes hfail fuel retry 0 hretry]

/-- Witness for C9 at `retry = 0` with a persistently failing command. -/
theorem run_nonpositive_retry_diverges_witness :
    run "t" "x" 0 0 true true fail_outcomes 3 = none :=
  run_nonpositive_retry_diverges "t" "x" 0 0 true true fail_outcomes (by decide)
    (fun _ => ⟨some 5, "boom", rfl⟩) 3

lemma runLoop_all_fail_count (d cd : String) (sleep : Int) (sc : Bool)
    (outcomes : Nat → AttemptOutcome)
    (hfail : ∀ i, ∃ rc msg, outcomes i = AttemptOutcome.failure rc msg) :
    ∀ n : Nat, 1 ≤ n → ∀ idx : Nat,
      ∃ o ns ss, runLoop d cd sleep sc outcomes n (n : Int) idx = some (o, ns, n, ss)
        ∧ ss = List.replicate (n - 1) sleep
        ∧ ∃ code, o = RunOutcome.exited code := by
  intro n
  induction n with
  | zero => intro h; exact absurd h (by omega)
  | succ m ih =>
    intro _ idx
    obtain ⟨rc, msg, hout⟩ := hfail idx
    rcases Nat.eq_zero_or_pos m with hm | hm
    · subst hm
      refine ⟨RunOutcome.exited (rc.getD 1),
        [⟨NotifKind.error, true,
          "Error: " ++ d ++ "\nCommand: " ++ cd ++ "\n" ++
            (if sc then msg else redacted_error_msg)⟩],
        [], ?_, by simp, ⟨rc.getD 1, rfl⟩⟩
      simp only [runLoop, hout]
      rw [if_neg (by omega)]
    · obtain ⟨o, ns, ss, hrun, hss, code, ho⟩ := ih hm (idx + 1)
      have hc : ((m + 1 : Nat) : Int) - 1 = (m : Int) := by push_cast; ring
      have hne : ((m + 1 : Nat) : Int) - 1 ≠ 0 := by
        rw [hc]; exact_mod_cast Nat.pos_iff_ne_zero.mp hm
      refine ⟨o,
        ⟨NotifKind.spam, false,
          "Retry in " ++ toString sleep ++ " seconds: " ++ d ++ "\nCommand: " ++ cd⟩ :: ns,
        sleep :: ss, ?_, ?_, ⟨code, ho⟩⟩
      · simp only [runLoop, hout]
        rw [if_pos hne, hc, hrun]
      · rw [hss]
        have h2 : m + 1 - 1 = (m - 1) + 1 := by omega
        rw [Nat.succ_sub_one]
        obtain ⟨k, rfl⟩ : ∃ k, m = k + 1 := ⟨m - 1, by omega⟩
        rfl

/-- C4: on a command that fails on every attempt and `retry ≥ 1`, the counter
is decremented before the retry/terminate branch, so the command is executed
exactly `retry` times with exactly `retry - 1` sleeps of the configured
interval in between, and the process is then terminated. -/
theorem run_attempt_count (d c : String) (retry sleep : Int) (banner sc : Bool)
    (outcomes : Nat → AttemptOutcome)
    (hretry : 1 ≤ retry)
    (hfail : ∀ i, ∃ rc msg, outcomes i = AttemptOutcome.failure rc msg) :
    ∃ tr, run d c retry sleep banner sc outcomes retry.toNat = some tr
      ∧ tr.attempts = retry.toNat
      ∧ tr.sleeps = List.replicate (retry.toNat - 1) sleep
      ∧ ∃ code, tr.outcome = RunOutcome.exited code := by
  have h1 : 1 ≤ retry.toNat := by omega
  obtain ⟨o, ns, ss, hrun, hss, code, ho⟩ :=
    runLoop_all_fail_count d (if sc then py_strip c else secret_placeholder) sleep sc
      outcomes hfail retry.toNat h1 0
  have hcast : ((retry.toNat : Int)) = retry := Int.toNat_of_nonneg (by omega)
  rw [hcast] at hrun
  refine ⟨⟨o,
    ⟨NotifKind.success, banner,
      "Action: " ++ d ++ "\nCommand: " ++ (if sc then py_strip c else secret_placeholder)⟩ :: ns,
    retry.toNat, ss⟩, ?_, rfl, hss, code, ho⟩
  simp only [run]
  rw [hrun]

/-- Witness for C4: `retry = 2` with sleep interval 0 performs exactly two
attempts and one zero-second sleep, then exits. -/
theorem run_attempt_count_witness :
    ∃ tr, run "t" "a_command_guaranteed_to_fail" 2 0 true true fail_outcomes 2 = some tr
      ∧ tr.attempts = 2
      ∧ tr.sleeps = [0]
      ∧ ∃ code, tr.outcome = RunOutcome.exited code := by
  obtain ⟨tr, h1, h2, h3, h4⟩ :=
    run_attempt_count "t" "a_command_guaranteed_to_fail" 2 0 true true fail_outcomes
      (by norm_num) (fun _ => ⟨some 5, "boom", rfl⟩)
  refine ⟨tr, h1, by omega, ?_, h4⟩
  rw [h3]
  rfl

lemma runLoop_last_attempt (d cd : String) (sleep : Int) (sc : Bool)
    (outcomes : Nat → AttemptOutcome) :
    ∀ fuel (tries : Int) (idx : Nat) o ns a ss,
      runLoop d cd sleep sc outcomes fuel tries idx = some (o, ns, a, ss) →
      1 ≤ a ∧ ns ≠ [] ∧
      ((outcomes (idx + a - 1) = AttemptOutcome.success ∧ o = RunOutcome.normal) ∨
       (∃ rc msg, outcomes (idx + a - 1) = AttemptOutcome.failure rc msg ∧
          o = RunOutcome.exited (rc.getD 1) ∧
          ∃ t, ns.getLast? = some ⟨NotifKind.error, true, t⟩)) := by
  intro fuel
  induction fuel with
  | zero => intro tries idx o ns a ss h; exact absurd h (by simp [runLoop])
  | succ n ih =>
    intro tries idx o ns a ss h
    cases hout : outcomes idx with
    | success =>
      simp only [runLoop, hout, Option.some.injEq, Prod.mk.injEq] at h
      obtain ⟨ho, hns, ha, hss⟩ := h
      subst ho hns ha hss
      refine ⟨by omega, by simp, Or.inl ⟨?_, rfl⟩⟩
      simpa using hout
    | failure rc msg =>
      simp only [runLoop, hout] at h
      by_cases hc : tries - 1 ≠ 0
      · rw [if_pos hc] at h
        cases hrec : runLoop d cd sleep sc outcomes n (tries - 1) (idx + 1) with
        | none => rw [hrec] at h; exact absurd h (by simp)
        | some x =>
          obtain ⟨o2, ns2, a2, ss2⟩ := x
          rw [hrec] at h
          simp only [Option.some.injEq, Prod.mk.injEq] at h
          obtain ⟨ho, hns, ha, hss⟩ := h
          subst ho hns ha hss
          obtain ⟨ha2, hns2, hcase⟩ := ih (tries - 1) (idx + 1) o2 ns2 a2 ss2 hrec
          refine ⟨by omega, by simp, ?_⟩
          have hidx : idx + (a2 + 1) - 1 = (idx + 1) + a2 - 1 := by omega
          rw [hidx]
          rcases hcase with hl | hr
          · exact Or.inl hl
          · obtain ⟨rc2, msg2, hf2, ho2, t, hlast⟩ := hr
            refine Or.inr ⟨rc2, msg2, hf2, ho2, t, ?_⟩
            obtain ⟨y, ys, rfl⟩ := List.exists_cons_of_ne_nil hns2
            rw [List.getLast?_cons_cons]
            exact hlast
      · rw [if_neg hc] at h
        simp only [Option.some.injEq, Prod.mk.injEq] at h
        obtain ⟨ho, hns, ha, hss⟩ := h
        subst ho hns ha hss
        refine ⟨by omega, by simp, Or.inr ⟨rc, msg, ?_, rfl, ⟨_, rfl⟩⟩⟩
        simpa using hout

/-- C3: `run` never returns an error value or raises to its caller — every
terminating call either returns normally or exits the process; if the last
executed attempt succeeds it returns normally, and on a terminal failure the
last emitted notification is an error rendered in banner style regardless of
the banner flag, and the process exits with the child's exit code when
available, otherwise with exit code 1. -/
theorem run_terminal_contract (d c : String) (retry sleep : Int) (banner sc : Bool)
    (outcomes : Nat → AttemptOutcome) (fuel : Nat) (tr : RunTrace)
    (h : run d c retry sleep banner sc outcomes fuel = some tr) :
    (tr.outcome = RunOutcome.normal ∨ ∃ code, tr.outcome = RunOutcome.exited code)
    ∧ (outcomes (tr.attempts - 1) = AttemptOutcome.success →
        tr.outcome = RunOutcome.normal)
    ∧ (∀ rc msg, outcomes (tr.attempts - 1) = AttemptOutcome.failure rc msg →
        tr.outcome = RunOutcome.exited (rc.getD 1)
        ∧ ∃ t, tr.notifications.getLast? = some ⟨NotifKind.error, true, t⟩) := by
  simp only [run] at h
  cases hrec : runLoop d (if sc then py_strip c else secret_placeholder) sleep sc
      outcomes fuel retry 0 with
  | none => rw [hrec] at h; exact absurd h (by simp)
  | some x =>
    obtain ⟨o, ns, a, ss⟩ := x
    rw [hrec] at h
    simp only [Option.some.injEq] at h
    subst h
    obtain ⟨ha, hns, hcase⟩ :=
      runLoop_last_attempt d (if sc then py_strip c else secret_placeholder) sleep sc
        outcomes fuel retry 0 o ns a ss hrec
    simp only [Nat.zero_add] at hcase
    refine ⟨?_, ?_, ?_⟩
    · rcases o with _ | code
      · exact Or.inl rfl
      · exact Or.inr ⟨code, rfl⟩
    · intro hs
      rcases hcase with hl | hr
      · exact hl.2
      · obtain ⟨rc, msg, hf, _, _⟩ := hr
        rw [hs] at hf
        exact absurd hf (by simp)
    · intro rc msg hf
      rcases hcase with hl | hr
      · rw [hf] at hl
        exact absurd hl.1 (by simp)
      · obtain ⟨rc2, msg2, hf2, ho2, t, hlast⟩ := hr
        rw [hf] at hf2
        obtain ⟨hrc, hmsg⟩ : rc = rc2 ∧ msg = msg2 := by
          have := hf2
          simp only [AttemptOutcome.failure.injEq] at this
          exact this
        subst hrc
        refine ⟨ho2, t, ?_⟩
        obtain ⟨y, ys, rfl⟩ := List.exists_cons_of_ne_nil hns
        rw [List.getLast?_cons_cons]
        exact hlast

/-- Witness for C3: one failing attempt with returncode 5 exits with code 5
and ends with a banner-style error notification. -/
theorem run_terminal_contract_witness :
    ∃ tr, run "t" "x" 1 0 true true fail_outcomes 1 = some tr
      ∧ tr.outcome = RunOutcome.exited 5
      ∧ ∃ t, tr.notifications.getLast? = some ⟨NotifKind.error, true, t⟩ := by
  have hrun : run "t" "x" 1 0 true true fail_outcomes 1 =
      some ⟨RunOutcome.exited 5,
        [⟨NotifKind.success, true, "Action: t\nCommand: x"⟩,
         ⟨NotifKind.error, true, "Error: t\nCommand: x\nboom"⟩], 1, []⟩ := by
    decide
  obtain ⟨h1, h2, h3⟩ :=
    run_terminal_contract "t" "x" 1 0 true true fail_outcomes 1 _ hrun
  have h4 := h3 (some 5) "boom" rfl
  exact ⟨_, hrun, h4.1, h4.2⟩

lemma runLoop_text_shapes (d cd : String) (sleep : Int) (sc : Bool)
    (outcomes : Nat → AttemptOutcome) :
    ∀ fuel (tries : Int) (idx : Nat) o ns a ss,
      runLoop d cd sleep sc outcomes fuel tries idx = some (o, ns, a, ss) →
      ∀ n ∈ ns,
        n.text = "Success: " ++ d
        ∨ n.text = "Retry in " ++ toString sleep ++ " seconds: " ++ d ++ "\nCommand: " ++ cd
        ∨ ∃ m, n.text = "Error: " ++ d ++ "\nCommand: " ++ cd ++ "\n" ++
            (if sc then m else redacted_error_msg) := by
  intro fuel
  induction fuel with
  | zero => intro tries idx o ns a ss h; exact absurd h (by simp [runLoop])
  | succ k ih =>
    intro tries idx o ns a ss h
    cases hout : outcomes idx with
    | success =>
      simp only [runLoop, hout, Option.some.injEq, Prod.mk.injEq] at h
      obtain ⟨_, hns, _, _⟩ := h
      subst hns
      intro n hn
      simp only [List.mem_singleton] at hn
      subst hn
      exact Or.inl rfl
    | failure rc msg =>
      simp only [runLoop, hout] at h
      by_cases hc : tries - 1 ≠ 0
      · rw [if_pos hc] at h
        cases hrec : runLoop d cd sleep sc outcomes k (tries - 1) (idx + 1) with
        | none => rw [hrec] at h; exact absurd h (by simp)
        | some x =>
          obtain ⟨o2, ns2, a2, ss2⟩ := x
          rw [hrec] at h
          simp only [Option.some.injEq, Prod.mk.injEq] at h
          obtain ⟨_, hns, _, _⟩ := h
          subst hns
          intro n hn
          rcases List.mem_cons.mp hn with hn1 | hn2
          · subst hn1
            exact Or.inr (Or.inl rfl)
          · exact ih (tries - 1) (idx + 1) o2 ns2 a2 ss2 hrec n hn2
      · rw [if_neg hc] at h
        simp only [Option.some.injEq, Prod.mk.injEq] at h
        obtain ⟨_, hns, _, _⟩ := h
        subst hns
        intro n hn
        simp only [List.mem_singleton] at hn
        subst hn
        exact Or.inr (Or.inr ⟨msg, rfl⟩)

/-- C5: with `show_command = false` the trace of `run` does not depend on the
command at all — two different commands yield identical results — and every
emitted notification's text is one of the fixed templates built from the
description, the sleep interval and the placeholder "***secret***" (with the
generic failure sentence in the error message). -/
theorem run_redaction (d c1 c2 : String) (retry sleep : Int) (banner : Bool)
    (outcomes : Nat → AttemptOutcome) (fuel : Nat) :
    run d c1 retry sleep banner false outcomes fuel
      = run d c2 retry sleep banner false outcomes fuel
    ∧ ∀ tr, run d c1 retry sleep banner false outcomes fuel = some tr →
        ∀ n ∈ tr.notifications,
          n.text = "Action: " ++ d ++ "\nCommand: " ++ secret_placeholder
          ∨ n.text = "Success: " ++ d
          ∨ n.text = "Retry in " ++ toString sleep ++ " seconds: " ++ d
              ++ "\nCommand: " ++ secret_placeholder
          ∨ n.text = "Error: " ++ d ++ "\nCommand: " ++ secret_placeholder
              ++ "\n" ++ redacted_error_msg := by
  constructor
  · rfl
  · intro tr htr n hn
    simp only [run, Bool.false_eq_true, if_false] at htr
    cases hrec : runLoop d secret_placeholder sleep false outcomes fuel retry 0 with
    | none => rw [hrec] at htr; exact absurd htr (by simp)
    | some x =>
      obtain ⟨o, ns, a, ss⟩ := x
      rw [hrec] at htr
      simp only [Option.some.injEq] at htr
      subst htr
      rcases List.mem_cons.mp hn with hn1 | hn2
      · subst hn1
        exact Or.inl rfl
      · have := runLoop_text_shapes d secret_placeholder sleep false outcomes
          fuel retry 0 o ns a ss hrec n hn2
        rcases this with h1 | h2 | ⟨m, h3⟩
        · exact Or.inr (Or.inl h1)
        · exact Or.inr (Or.inr (Or.inl h2))
        · refine Or.inr (Or.inr (Or.inr ?_))
          rw [h3]
          simp

/-- Witness for C5: two different secret commands produce identical traces,
and every notification of a concrete failing redacted run has one of the
fixed texts. -/
theorem run_redaction_witness :
    run "t" "cmd_one" 1 0 true false fail_outcomes 1
      = run "t" "cmd_two" 1 0 true false fail_outcomes 1
    ∧ ∃ tr, run "t" "cmd_one" 1 0 true false fail_outcomes 1 = some tr
        ∧ ∀ n ∈ tr.notifications,
            n.text = "Action: t\nCommand: " ++ secret_placeholder
            ∨ n.text = "Success: t"
            ∨ n.text = "Retry in 0 seconds: t\nCommand: " ++ secret_placeholder
            ∨ n.text = "Error: t\nCommand: " ++ secret_placeholder
                ++ "\n" ++ redacted_error_msg := by
  obtain ⟨h1, h2⟩ := run_redaction "t" "cmd_one" "cmd_two" 1 0 true fail_outcomes 1
  have hrun : run "t" "cmd_one" 1 0 true false fail_outcomes 1 =
      some ⟨RunOutcome.exited 5,
        [⟨NotifKind.success, true, "Action: t\nCommand: ***secret***"⟩,
         ⟨NotifKind.error, true,
           "Error: t\nCommand: ***secret***\nCommand ***secret*** returned non-zero exit status"⟩],
        1, []⟩ := by decide
  exact ⟨h1, ⟨_, hrun, h2 _ hrun⟩⟩

lemma all_space_dropWhile (l : List Char) (h : ∀ c ∈ l, isPySpace c = true) :
    List.dropWhile isPySpace l = [] := by
  induction l with
  | nil => rfl
  | cons c t ih =>
    rw [List.dropWhile_cons, if_pos (h c (List.mem_cons_self c t))]
    exact ih (fun x hx => h x (List.mem_cons_of_mem c hx))

lemma all_space_strip (s : String) (h : ∀ c ∈ s.data, isPySpace c = true) :
    py_strip s = "" := by
  unfold py_strip stripChars
  rw [all_space_dropWhile s.data h]
  rfl

/-- C10: whenever `PYPI_PASSWORD` is empty or whitespace-only, a non-dry-run
`deploy` emits only the missing-secret warning and invokes no command at
all — the password guard fires before the `do_deploy` decision, regardless
of `BUILD` and `GITHUB_EVENT_NAME`. -/
theorem deploy_missing_password_guard (env : Env)
    (h : ∀ c ∈ (get_env_data env "PYPI_PASSWORD").data, isPySpace c = true) :
    deploy env false
      = [CicdEvent.warning "can not deploy, because secret PYPI_PASSWORD is missing"]
    ∧ ∀ e ∈ deploy env false, ∀ ds cs scs, e ≠ CicdEvent.runCmd ds cs scs := by
  have hp : py_strip (get_env_data env "PYPI_PASSWORD") = "" := all_space_strip _ h
  have hd : deploy env false
      = [CicdEvent.warning "can not deploy, because secret PYPI_PASSWORD is missing"] := by
    simp [deploy, hp]
  refine ⟨hd, ?_⟩
  intro e he ds cs scs
  rw [hd] at he
  simp only [List.mem_singleton] at he
  subst he
  simp

/-- Witness for C10: a release build with `BUILD="true"` but a blank password
still only warns (and its `do_deploy` decision is in fact true). -/
theorem deploy_missing_password_guard_witness :
    deploy env_release_no_password false
      = [CicdEvent.warning "can not deploy, because secret PYPI_PASSWORD is missing"]
    ∧ do_deploy env_release_no_password = true := by
  refine ⟨(deploy_missing_password_guard env_release_no_password (by decide)).1, by decide⟩

lemma memoCall_read_some {α : Type} (read : CState → Option α)
    (write : α → CState → CState) (compute : CState → α × CState)
    (hrw : ∀ r s, read (write r s) = some r) (st : CState) :
    read (memoCall read write compute st).2 = some (memoCall read write compute st).1 := by
  rcases hr : read st with _ | r
  · rcases hc : compute st with ⟨r2, st2⟩
    simp [memoCall, hr, hc, hrw]
  · simp [memoCall, hr]

lemma memoCall_hit {α : Type} (read : CState → Option α)
    (write : α → CState → CState) (compute : CState → α × CState)
    (st : CState) (r : α) (h : read st = some r) :
    memoCall read write compute st = (r, st) := by
  simp [memoCall, h]

lemma memo_env_stable {α : Type} (read : CState → Option α)
    (write : α → CState → CState) (compute : CState → α × CState)
    (hrw : ∀ r s, read (write r s) = some r)
    (hre : ∀ s e, read (with_env s e) = read s)
    (st : CState) (e2 : Env) :
    (memoCall read write compute (with_env (memoCall read write compute st).2 e2)).1
      = (memoCall read write compute st).1 := by
  have h2 : read (with_env (memoCall read write compute st).2 e2)
      = some (memoCall read write compute st).1 := by
    rw [hre]
    exact memoCall_read_some read write compute hrw st
  rw [memoCall_hit read write compute _ _ h2]

lemma env_data_stale (v : String) (st : CState) (e2 : Env) :
    (call_get_env_data v (with_env (call_get_env_data v st).2 e2)).1
      = (call_get_env_data v st).1 := by
  rcases hl : st.env_cache.lookup v with _ | r
  · simp [call_get_env_data, with_env, hl, List.lookup]
  · simp [call_get_env_data, with_env, hl]

lemma fresh_do_build_docs (st : CState) :
    (call_do_build_docs (clear_all_caches st)).1 = do_build_docs st.env := by
  by_cases h1 : py_lower (get_env_data st.env "BUILD_DOCS") ≠ "true"
  · simp [call_do_build_docs, memoCall, call_get_env_data, clear_all_caches,
      do_build_docs, List.lookup, h1]
  · by_cases h2 : get_env_data st.env "RST_INCLUDE_SOURCE" = ""
    · simp [call_do_build_docs, memoCall, call_get_env_data, clear_all_caches,
        do_build_docs, List.lookup, h1, h2]
    · by_cases h3 : get_env_data st.env "RST_INCLUDE_TARGET" = ""
      · simp [call_do_build_docs, memoCall, call_get_env_data, clear_all_caches,
          do_build_docs, List.lookup, h1, h2, h3]
      · simp [call_do_build_docs, memoCall, call_get_env_data, clear_all_caches,
          do_build_docs, List.lookup, h1, h2, h3]

lemma fresh_is_github_actions_active (st : CState) :
    (call_is_github_actions_active (clear_all_caches st)).1
      = is_github_actions_active st.env := by
  by_cases h1 : get_env_data st.env "CI" = ""
  · simp [call_is_github_actions_active, memoCall, call_get_env_data,
      clear_all_caches, is_github_actions_active, List.lookup, h1]
  · by_cases h2 : get_env_data st.env "GITHUB_WORKFLOW" = ""
    · simp [call_is_github_actions_active, memoCall, call_get_env_data,
        clear_all_caches, is_github_actions_active, List.lookup, h1, h2]
    · have h1b : (get_env_data st.env "CI" == "") = false := by simp [h1]
      have h2b : (get_env_data st.env "GITHUB_WORKFLOW" == "") = false := by simp [h2]
      simp [call_is_github_actions_active, memoCall, call_get_env_data,
        clear_all_caches, is_github_actions_active, List.lookup, h1, h2, h1b, h2b]

lemma fresh_do_deploy (st : CState) :
    (call_do_deploy (clear_all_caches st)).1 = do_deploy st.env := by
  by_cases hb : do_build st.env = true
  · simp [call_do_deploy, memoCall, call_do_build, call_is_release,
      call_get_env_data, clear_all_caches, do_deploy, is_release, List.lookup, hb]
  · simp [call_do_deploy, memoCall, call_do_build, call_is_release,
      call_get_env_data, clear_all_caches, do_deploy, is_release, List.lookup, hb]

/-- C8: every decision function (and the memoized `get_env_data` itself)
is cached: a second call with the same arguments and no intervening cache
clear returns the first call's result even if the process environment is
mutated in between; and immediately after `clear_all_caches` each function
re-reads and reflects the current environment value. -/
theorem memoization_contract (st : CState) (e2 : Env) :
    ((∀ v, (call_get_env_data v (with_env (call_get_env_data v st).2 e2)).1
        = (call_get_env_data v st).1)
      ∧ (∀ v, (call_get_env_data v (clear_all_caches st)).1 = get_env_data st.env v))
    ∧ ((call_is_github_actions_active (with_env (call_is_github_actions_active st).2 e2)).1
        = (call_is_github_actions_active st).1
      ∧ (call_is_github_actions_active (clear_all_caches st)).1 = is_github_actions_active st.env)
    ∧ ((call_is_release (with_env (call_is_release st).2 e2)).1
        = (call_is_release st).1
      ∧ (call_is_release (clear_all_caches st)).1 = is_release st.env)
    ∧ ((call_do_deploy (with_env (call_do_deploy st).2 e2)).1
        = (call_do_deploy st).1
      ∧ (call_do_deploy (clear_all_caches st)).1 = do_deploy st.env)
    ∧ ((call_do_build (with_env (call_do_build st).2 e2)).1
        = (call_do_build st).1
      ∧ (call_do_build (clear_all_caches st)).1 = do_build st.env)
    ∧ ((call_do_build_docs (with_env (call_do_build_docs st).2 e2)).1
        = (call_do_build_docs st).1
      ∧ (call_do_build_docs (clear_all_caches st)).1 = do_build_docs st.env)
    ∧ ((call_do_build_test (with_env (call_do_build_test st).2 e2)).1
        = (call_do_build_test st).1
      ∧ (call_do_build_test (clear_all_caches st)).1 = do_build_test st.env)
    ∧ ((call_is_ci_runner_os_macos (with_env (call_is_ci_runner_os_macos st).2 e2)).1
        = (call_is_ci_runner_os_macos st).1
      ∧ (call_is_ci_runner_os_macos (clear_all_caches st)).1 = is_ci_runner_os_macos st.env)
    ∧ ((call_is_ci_runner_os_linux (with_env (call_is_ci_runner_os_linux st).2 e2)).1
        = (call_is_ci_runner_os_linux st).1
      ∧ (call_is_ci_runner_os_linux (clear_all_caches st)).1 = is_ci_runner_os_linux st.env)
    ∧ ((call_is_ci_runner_os_windows (with_env (call_is_ci_runner_os_windows st).2 e2)).1
        = (call_is_ci_runner_os_windows st).1
      ∧ (call_is_ci_runner_os_windows (clear_all_caches st)).1 = is_ci_runner_os_windows st.env)
    ∧ ((call_is_pypy3 (with_env (call_is_pypy3 st).2 e2)).1
        = (call_is_pypy3 st).1
      ∧ (call_is_pypy3 (clear_all_caches st)).1 = is_pypy3 st.env)
    ∧ ((call_do_flake8_tests (with_env (call_do_flake8_tests st).2 e2)).1
        = (call_do_flake8_tests st).1
      ∧ (call_do_flake8_tests (clear_all_caches st)).1 = do_flake8_tests st.env)
    ∧ ((call_do_check_cli (with_env (call_do_check_cli st).2 e2)).1
        = (call_do_check_cli st).1
      ∧ (call_do_check_cli (clear_all_caches st)).1 = do_check_cli st.env)
    ∧ ((call_do_setup_py_test (with_env (call_do_setup_py_test st).2 e2)).1
        = (call_do_setup_py_test st).1
      ∧ (call_do_setup_py_test (clear_all_caches st)).1 = do_setup_py_test st.env)
    ∧ ((call_do_setup_py (with_env (call_do_setup_py st).2 e2)).1
        = (call_do_setup_py st).1
      ∧ (call_do_setup_py (clear_all_caches st)).1 = do_setup_py st.env)
    ∧ ((call_do_upload_code_climate (with_env (call_do_upload_code_climate st).2 e2)).1
        = (call_do_upload_code_climate st).1
      ∧ (call_do_upload_code_climate (clear_all_caches st)).1 = do_upload_code_climate st.env)
    ∧ ((call_do_upload_codecov (with_env (call_do_upload_codecov st).2 e2)).1
        = (call_do_upload_codecov st).1
      ∧ (call_do_upload_codecov (clear_all_caches st)).1 = do_upload_codecov st.env)
    ∧ ((call_do_coverage (with_env (call_do_coverage st).2 e2)).1
        = (call_do_coverage st).1
      ∧ (call_do_coverage (clear_all_caches st)).1 = do_coverage st.env)
    ∧ ((call_do_pytest (with_env (call_do_pytest st).2 e2)).1
        = (call_do_pytest st).1
      ∧ (call_do_pytest (clear_all_caches st)).1 = do_pytest st.env)
    ∧ ((call_do_mypy_tests (with_env (call_do_mypy_tests st).2 e2)).1
        = (call_do_mypy_tests st).1
      ∧ (call_do_mypy_tests (clear_all_caches st)).1 = do_mypy_tests st.env)
    ∧ ((call_get_github_username (with_env (call_get_github_username st).2 e2)).1
        = (call_get_github_username st).1
      ∧ (call_get_github_username (clear_all_caches st)).1 = get_github_username st.env)
    ∧ ((call_get_python_cmd (with_env (call_get_python_cmd st).2 e2)).1
        = (call_get_python_cmd st).1
      ∧ (call_get_python_cmd (clear_all_caches st)).1 = get_python_cmd st.env)
    ∧ ((call_get_pip_cmd (with_env (call_get_pip_cmd st).2 e2)).1
        = (call_get_pip_cmd st).1
      ∧ (call_get_pip_cmd (clear_all_caches st)).1 = get_pip_cmd st.env)
    ∧ ((call_get_branch (with_env (call_get_branch st).2 e2)).1
        = (call_get_branch st).1
      ∧ (call_get_branch (clear_all_caches st)).1 = get_branch st.env) := by
  refine ⟨⟨fun v => env_data_stale v st e2, fun v => rfl⟩, ⟨?_, ?_⟩, ⟨?_, ?_⟩, ⟨?_, ?_⟩, ⟨?_, ?_⟩, ⟨?_, ?_⟩, ⟨?_, ?_⟩, ⟨?_, ?_⟩, ⟨?_, ?_⟩, ⟨?_, ?_⟩, ⟨?_, ?_⟩, ⟨?_, ?_⟩, ⟨?_, ?_⟩, ⟨?_, ?_⟩, ⟨?_, ?_⟩, ⟨?_, ?_⟩, ⟨?_, ?_⟩, ⟨?_, ?_⟩, ⟨?_, ?_⟩, ⟨?_, ?_⟩, ⟨?_, ?_⟩, ⟨?_, ?_⟩, ⟨?_, ?_⟩, ⟨?_, ?_⟩⟩
  · exact memo_env_stable (fun s => s.c_is_github_actions_active)
      (fun r s => { s with c_is_github_actions_active := some r }) _
      (fun _ _ => rfl) (fun _ _ => rfl) st e2
  · exact fresh_is_github_actions_active st
  · exact memo_env_stable (fun s => s.c_is_release)
      (fun r s => { s with c_is_release := some r }) _
      (fun _ _ => rfl) (fun _ _ => rfl) st e2
  · exact rfl
  · exact memo_env_stable (fun s => s.c_do_deploy)
      (fun r s => { s with c_do_deploy := some r }) _
      (fun _ _ => rfl) (fun _ _ => rfl) st e2
  · exact fresh_do_deploy st
  · exact memo_env_stable (fun s => s.c_do_build)
      (fun r s => { s with c_do_build := some r }) _
      (fun _ _ => rfl) (fun _ _ => rfl) st e2
  · exact rfl
  · exact memo_env_stable (fun s => s.c_do_build_docs)
      (fun r s => { s with c_do_build_docs := some r }) _
      (fun _ _ => rfl) (fun _ _ => rfl) st e2
  · exact fresh_do_build_docs st
  · exact memo_env_stable (fun s => s.c_do_build_test)
      (fun r s => { s with c_do_build_test := some r }) _
      (fun _ _ => rfl) (fun _ _ => rfl) st e2
  · exact rfl
  · exact memo_env_stable (fun s => s.c_is_ci_runner_os_macos)
      (fun r s => { s with c_is_ci_runner_os_macos := some r }) _
      (fun _ _ => rfl) (fun _ _ => rfl) st e2
  · exact rfl
  · exact memo_env_stable (fun s => s.c_is_ci_runner_os_linux)
      (fun r s => { s with c_is_ci_runner_os_linux := some r }) _
      (fun _ _ => rfl) (fun _ _ => rfl) st e2
  · exact rfl
  · exact memo_env_stable (fun s => s.c_is_ci_runner_os_windows)
      (fun r s => { s with c_is_ci_runner_os_windows := some r }) _
      (fun _ _ => rfl) (fun _ _ => rfl) st e2
  · exact rfl
  · exact memo_env_stable (fun s => s.c_is_pypy3)
      (fun r s => { s with c_is_pypy3 := some r }) _
      (fun _ _ => rfl) (fun _ _ => rfl) st e2
  · exact rfl
  · exact memo_env_stable (fun s => s.c_do_flake8_tests)
      (fun r s => { s with c_do_flake8_tests := some r }) _
      (fun _ _ => rfl) (fun _ _ => rfl) st e2
  · exact rfl
  · exact memo_env_stable (fun s => s.c_do_check_cli)
      (fun r s => { s with c_do_check_cli := some r }) _
      (fun _ _ => rfl) (fun _ _ => rfl) st e2
  · exact rfl
  · exact memo_env_stable (fun s => s.c_do_setup_py_test)
      (fun r s => { s with c_do_setup_py_test := some r }) _
      (fun _ _ => rfl) (fun _ _ => rfl) st e2
  · exact rfl
  · exact memo_env_stable (fun s => s.c_do_setup_py)
      (fun r s => { s with c_do_setup_py := some r }) _
      (fun _ _ => rfl) (fun _ _ => rfl) st e2
  · exact rfl
  · exact memo_env_stable (fun s => s.c_do_upload_code_climate)
      (fun r s => { s with c_do_upload_code_climate := some r }) _
      (fun _ _ => rfl) (fun _ _ => rfl) st e2
  · exact rfl
  · exact memo_env_stable (fun s => s.c_do_upload_codecov)
      (fun r s => { s with c_do_upload_codecov := some r }) _
      (fun _ _ => rfl) (fun _ _ => rfl) st e2
  · exact rfl
  · exact memo_env_stable (fun s => s.c_do_coverage)
      (fun r s => { s with c_do_coverage := some r }) _
      (fun _ _ => rfl) (fun _ _ => rfl) st e2
  · exact rfl
  · exact memo_env_stable (fun s => s.c_do_pytest)
      (fun r s => { s with c_do_pytest := some r }) _
      (fun _ _ => rfl) (fun _ _ => rfl) st e2
  · exact rfl
  · exact memo_env_stable (fun s => s.c_do_mypy_tests)
      (fun r s => { s with c_do_mypy_tests := some r }) _
      (fun _ _ => rfl) (fun _ _ => rfl) st e2
  · exact rfl
  · exact memo_env_stable (fun s => s.c_get_github_username)
      (fun r s => { s with c_get_github_username := some r }) _
      (fun _ _ => rfl) (fun _ _ => rfl) st e2
  · exact rfl
  · exact memo_env_stable (fun s => s.c_get_python_cmd)
      (fun r s => { s with c_get_python_cmd := some r }) _
      (fun _ _ => rfl) (fun _ _ => rfl) st e2
  · exact rfl
  · exact memo_env_stable (fun s => s.c_get_pip_cmd)
      (fun r s => { s with c_get_pip_cmd := some r }) _
      (fun _ _ => rfl) (fun _ _ => rfl) st e2
  · exact rfl
  · exact memo_env_stable (fun s => s.c_get_branch)
      (fun r s => { s with c_get_branch := some r }) _
      (fun _ _ => rfl) (fun _ _ => rfl) st e2
  · exact rfl
